import Mathlib

/-!
Verification of the deirokay statement base contract and the Airflow
pipeline-adapter operator, as a shallow embedding of the Python source
(`deirokay/statements/base_statement.py` and
`deirokay/airflow/deirokay_operator.py`).

Python dictionaries are modelled as association lists of string keys
(`Dict`), dataframes as named columns of values (`DataFrame`), and raised
exceptions as `Except` results carrying a `PyError`. The code raises
`ValueError` for configuration mistakes (the specification's
`ConfigurationError`) and `NotImplementedError` for unsupported profiling;
both appear as constructors of `PyError`.

A Python statement class is a `StatementClass` record: its class name (used
in error messages), its `name`, `expected_parameters` and `table_only`
class attributes, and its (overridable) `report` and `result` methods,
which in the source receive `self` and therefore may read the instance's
options. The base class `BaseStatement` is one concrete such record,
`baseStatementClass`, with the method bodies translated from the source.
-/

namespace Deirokay

/-- A Python value, as far as the embedded code needs to distinguish them. -/
inductive Value where
  | null : Value
  | b : Bool → Value
  | i : Int → Value
  | s : String → Value
  | dict : List (String × Value) → Value

/-- A Python `dict` with string keys, in insertion order. -/
abbrev Dict := List (String × Value)

/-- A pandas DataFrame slice: named columns of values. The base statement
contract never inspects the contents, only passes the slice around. -/
abbrev DataFrame := List (String × List Value)

/-- The exceptions raised by the embedded code: `ValueError` (raised by
`BaseStatement._validate_options`, carrying the statement class name, the
list of unexpected parameters and the class's `expected_parameters` shown in
the message) and `NotImplementedError` (raised by `BaseStatement.profile`). -/
inductive PyError where
  | valueError (clsName : String) (unexpected : List String)
      (valid : List String) : PyError
  | notImplementedError : PyError
deriving DecidableEq

/-- `BaseStatement.name = 'base_statement'`. -/
def BaseStatement.name : String := "base_statement"

/-- `BaseStatement.expected_parameters = ['type', 'severity', 'location']`. -/
def BaseStatement.expected_parameters : List String :=
  ["type", "severity", "location"]

/-- `BaseStatement.table_only = False`. -/
def BaseStatement.table_only : Bool := false

/-- `BaseStatement.report`: returns the empty dict, ignoring the slice. -/
def BaseStatement.report (options : Dict) (df : DataFrame) : Dict := []

/-- `BaseStatement.result`: returns `True`, ignoring the report. -/
def BaseStatement.result (options report : Dict) : Bool := true

/-- `BaseStatement.profile` (a staticmethod): raises `NotImplementedError`
unconditionally. -/
def BaseStatement.profile (df : DataFrame) : Except PyError Dict :=
  Except.error PyError.notImplementedError

/-- A statement class: the class-level data `_validate_options` and
`__call__` consult. `report` and `result` receive the instance's options
first, since in the source they are methods on `self`. -/
structure StatementClass where
  clsName : String
  name : String
  expected_parameters : List String
  table_only : Bool
  report : Dict → DataFrame → Dict
  result : Dict → Dict → Bool

/-- The class `BaseStatement` itself, as a `StatementClass` record. -/
def baseStatementClass : StatementClass :=
  { clsName := "BaseStatement"
    name := BaseStatement.name
    expected_parameters := BaseStatement.expected_parameters
    table_only := BaseStatement.table_only
    report := BaseStatement.report
    result := BaseStatement.result }

/-- The set of option keys `_validate_options` accepts for a class:
`cls.expected_parameters + BaseStatement.expected_parameters`. -/
def acceptedParameters (cls : StatementClass) : List String :=
  cls.expected_parameters ++ BaseStatement.expected_parameters

/-- The list comprehension in `_validate_options`:
`[option for option in options if option not in (cls.expected_parameters +
BaseStatement.expected_parameters)]`, iterating the dict keys in order. -/
def unexpectedParameters (cls : StatementClass) (options : Dict) :
    List String :=
  (options.map Prod.fst).filter
    (fun option => decide (option ∉ acceptedParameters cls))

/-- `BaseStatement._validate_options`: raises `ValueError` naming the
unexpected parameters and `cls.expected_parameters` when any key is
unexpected, otherwise returns normally. -/
def validateOptions (cls : StatementClass) (options : Dict) :
    Except PyError Unit :=
  let unexpected := unexpectedParameters cls options
  if unexpected = [] then
    Except.ok ()
  else
    Except.error
      (PyError.valueError cls.clsName unexpected cls.expected_parameters)

/-- A constructed statement instance: its class and its stored
`self.options`. -/
structure StatementInstance where
  cls : StatementClass
  options : Dict

/-- `BaseStatement.__init__`: runs `_validate_options(options)` and, only
when that returns, assigns `self.options = options`. -/
def construct (cls : StatementClass) (options : Dict) :
    Except PyError StatementInstance :=
  match validateOptions cls options with
  | Except.error e => Except.error e
  | Except.ok _ => Except.ok { cls := cls, options := options }

/-- `BaseStatement.__call__`: computes `internal_report = self.report(df)`,
then `result = self.result(internal_report)`, and returns
`{'detail': internal_report, 'result': result}`. -/
def StatementInstance.call (stmt : StatementInstance) (df : DataFrame) :
    Dict :=
  let internal_report := stmt.cls.report stmt.options df
  let result := stmt.cls.result stmt.options internal_report
  [("detail", Value.dict internal_report), ("result", Value.b result)]

/-- Running the same instance twice on the same slice, sequentially; the
source's `__call__` performs no assignment to `self`, so the second
invocation sees the same instance state as the first. -/
def evaluateTwice (stmt : StatementInstance) (df : DataFrame) :
    Dict × Dict :=
  (stmt.call df, stmt.call df)

/-- The external collaborators `deirokay.data_reader` and
`deirokay.validate` that `DeirokayOperator.execute` calls; both are outside
this core and may raise, so they are abstract `Except`-valued functions. -/
structure AirflowEnv where
  data_reader : String → String → Except PyError DataFrame
  validate : DataFrame → String → Except PyError Dict

/-- A constructed `DeirokayOperator`: the three attributes its `__init__`
assigns. `save_json` is accepted by `__init__` but never assigned, so it is
not a field. -/
structure DeirokayOperator where
  path_to_file : String
  deirokay_options_json : String
  deirokay_assertions_json : String

/-- `DeirokayOperator.__init__`: stores `path_to_file`,
`deirokay_options_json` and `deirokay_assertions_json`; the `save_json`
argument is received and then ignored. -/
def DeirokayOperator.init (path_to_file : String)
    (deirokay_options_json : String) (deirokay_assertions_json : String)
    (save_json : Option String) : DeirokayOperator :=
  { path_to_file := path_to_file
    deirokay_options_json := deirokay_options_json
    deirokay_assertions_json := deirokay_assertions_json }

/-- `DeirokayOperator.execute`: reads the file with
`deirokay.data_reader(self.path_to_file, options_json=...)`, validates the
result with `deirokay.validate(df, against_json=...)` and returns
`self.path_to_file`; an exception in either call propagates. -/
def DeirokayOperator.execute (env : AirflowEnv) (op : DeirokayOperator) :
    Except PyError String :=
  match env.data_reader op.path_to_file op.deirokay_options_json with
  | Except.error e => Except.error e
  | Except.ok df =>
    match env.validate df op.deirokay_assertions_json with
    | Except.error e => Except.error e
    | Except.ok _ => Except.ok op.path_to_file

/-- A concrete environment whose collaborators always succeed, used to
exercise `DeirokayOperator.execute` on a closed input. -/
def trivialEnv : AirflowEnv :=
  { data_reader := fun _ _ => Except.ok []
    validate := fun _ _ => Except.ok [] }

/-- A concrete subclass of `BaseStatement` (the class is designed to be
subclassed, with `cls = type(self)` consulted during validation): it
declares a single expected parameter of its own and inherits the base
`report` and `result` bodies. Used as a concrete input to `construct`. -/
def customStatementClass : StatementClass :=
  { clsName := "CustomStatement"
    name := "custom_statement"
    expected_parameters := ["foo"]
    table_only := false
    report := BaseStatement.report
    result := BaseStatement.result }

/-- A constructed bare base-statement instance with empty options. -/
def baseInstance : StatementInstance :=
  { cls := baseStatementClass, options := [] }

lemma unexpectedParameters_eq_nil_iff (cls : StatementClass)
    (options : Dict) :
    unexpectedParameters cls options = [] ↔
      ∀ k ∈ options.map Prod.fst, k ∈ acceptedParameters cls := by
  simp [unexpectedParameters, List.filter_eq_nil_iff]

/-- Claim C1: construction succeeds exactly when every key of the options
mapping lies in the union of the class's declared `expected_parameters` and
the base names `type`, `severity`, `location`; when some key lies outside
that union, construction fails with the configuration error (the source's
`ValueError`) carrying the offending keys. -/
theorem construct_succeeds_iff_keys_accepted (cls : StatementClass)
    (options : Dict) :
    (construct cls options =
        Except.ok { cls := cls, options := options } ↔
      ∀ k ∈ options.map Prod.fst, k ∈ acceptedParameters cls) ∧
    ((¬ ∀ k ∈ options.map Prod.fst, k ∈ acceptedParameters cls) →
      construct cls options =
        Except.error (PyError.valueError cls.clsName
          (unexpectedParameters cls options) cls.expected_parameters)) := by
  by_cases h : unexpectedParameters cls options = []
  · refine ⟨?_, ?_⟩
    · have hall := (unexpectedParameters_eq_nil_iff cls options).mp h
      simp [construct, validateOptions, h]
      intro k x hkx
      exact hall k (List.mem_map_of_mem Prod.fst hkx)
    · intro hnot
      exact absurd ((unexpectedParameters_eq_nil_iff cls options).mp h) hnot
  · refine ⟨?_, ?_⟩
    · constructor
      · intro hok
        simp [construct, validateOptions, h] at hok
      · intro hall
        exact absurd
          ((unexpectedParameters_eq_nil_iff cls options).mpr hall) h
    · intro _
      simp [construct, validateOptions, h]

/-- Witness for C1 at concrete inputs: an accepted mapping constructs, and
a mapping with the stray key `bogus` fails with the configuration error
naming it. -/
theorem construct_succeeds_iff_keys_accepted_witness :
    construct baseStatementClass [("severity", Value.i 5)] =
      Except.ok { cls := baseStatementClass,
                  options := [("severity", Value.i 5)] } ∧
    construct baseStatementClass
        [("severity", Value.i 5), ("bogus", Value.null)] =
      Except.error (PyError.valueError baseStatementClass.clsName
        (unexpectedParameters baseStatementClass
          [("severity", Value.i 5), ("bogus", Value.null)])
        baseStatementClass.expected_parameters) :=
  ⟨(construct_succeeds_iff_keys_accepted baseStatementClass
      [("severity", Value.i 5)]).1.mpr (by decide),
   (construct_succeeds_iff_keys_accepted baseStatementClass
      [("severity", Value.i 5), ("bogus", Value.null)]).2 (by decide)⟩

/-- Counterexample to claim C2: for a statement type whose own
`expected_parameters` are `["foo"]`, construction with the stray key `bar`
raises an error whose valid-parameters list is exactly `["foo"]`, omitting
`severity` even though `severity` is in the accepted set — so the error does
not name the accepted set. -/
theorem construct_error_omits_base_names :
    construct customStatementClass [("bar", Value.b true)] =
      Except.error
        (PyError.valueError "CustomStatement" ["bar"] ["foo"]) ∧
    "severity" ∈ acceptedParameters customStatementClass ∧
    "severity" ∉ (["foo"] : List String) :=
  ⟨rfl, by decide, by decide⟩

/-- Claim C2 (amended): when construction fails, the error carries exactly
the unrecognized keys (each key of the options mapping outside the accepted
union, and no others) together with the statement type's own declared
`expected_parameters` list — which equals the full accepted set only when
that list already contains the base names. -/
theorem construct_error_names_unexpected_keys (cls : StatementClass)
    (options : Dict) (e : PyError)
    (h : construct cls options = Except.error e) :
    e = PyError.valueError cls.clsName (unexpectedParameters cls options)
        cls.expected_parameters ∧
    ∀ k, k ∈ unexpectedParameters cls options ↔
      (k ∈ options.map Prod.fst ∧ k ∉ acceptedParameters cls) := by
  by_cases hu : unexpectedParameters cls options = []
  · simp [construct, validateOptions, hu] at h
  · simp only [construct, validateOptions, hu, if_neg hu] at h
    refine ⟨?_, ?_⟩
    · cases h
      rfl
    · intro k
      simp [unexpectedParameters, List.mem_filter]

/-- Witness for the amended C2 at a concrete failing construction. -/
theorem construct_error_names_unexpected_keys_witness :
    (PyError.valueError "CustomStatement" ["bar"] ["foo"] =
      PyError.valueError customStatementClass.clsName
        (unexpectedParameters customStatementClass [("bar", Value.b true)])
        customStatementClass.expected_parameters) ∧
    ∀ k, k ∈ unexpectedParameters customStatementClass
        [("bar", Value.b true)] ↔
      (k ∈ ([("bar", Value.b true)] : Dict).map Prod.fst ∧
        k ∉ acceptedParameters customStatementClass) :=
  construct_error_names_unexpected_keys customStatementClass
    [("bar", Value.b true)]
    (PyError.valueError "CustomStatement" ["bar"] ["foo"]) rfl

/-- Claim C3: `__call__` returns a dict whose keys are exactly `detail` and
`result`, where `detail` is the value of the report phase on the slice and
`result` is the boolean the result phase produces from that report. -/
theorem evaluate_returns_detail_and_result (stmt : StatementInstance)
    (df : DataFrame) :
    stmt.call df =
      [("detail", Value.dict (stmt.cls.report stmt.options df)),
       ("result", Value.b (stmt.cls.result stmt.options
          (stmt.cls.report stmt.options df)))] ∧
    (stmt.call df).map Prod.fst = ["detail", "result"] :=
  ⟨rfl, rfl⟩

/-- Claim C4: the verdict is a function of the report alone — two
evaluations of the same instance whose report phases produce the same
report yield the same final report (in particular the same boolean),
whatever the underlying slices were. -/
theorem result_depends_only_on_report (stmt : StatementInstance)
    (df1 df2 : DataFrame)
    (h : stmt.cls.report stmt.options df1 =
      stmt.cls.report stmt.options df2) :
    stmt.call df1 = stmt.call df2 := by
  simp [StatementInstance.call, h]

/-- Witness for C4: the base statement's report ignores the slice, so two
different slices give the same report and hence the same evaluation. -/
theorem result_depends_only_on_report_witness :
    baseInstance.call [("a", [Value.i 1])] = baseInstance.call [] :=
  result_depends_only_on_report baseInstance [("a", [Value.i 1])] [] rfl

/-- Claim C5: the base statement's `profile` raises `NotImplementedError`
on every input sample. -/
theorem profile_raises_not_implemented (df : DataFrame) :
    BaseStatement.profile df = Except.error PyError.notImplementedError :=
  rfl

/-- Counterexample to claim C6: the code never checks for missing options.
`type` is an expected parameter of the base statement, yet constructing it
from the empty options mapping — which lacks `type` (and every other
expected parameter) — succeeds instead of raising a configuration error. -/
theorem missing_expected_option_not_rejected :
    "type" ∈ BaseStatement.expected_parameters ∧
    construct baseStatementClass [] =
      Except.ok { cls := baseStatementClass, options := [] } :=
  ⟨by decide, rfl⟩

/-- Claim C6 (amended): construction performs no required-option check at
all — option validation only rejects unrecognized keys, so an options
mapping lacking any (indeed all) of the expected parameters, such as the
empty mapping, constructs successfully for every statement type. -/
theorem construct_accepts_empty_options (cls : StatementClass) :
    construct cls [] = Except.ok { cls := cls, options := [] } :=
  rfl

/-- Claim C7: evaluation is idempotent — running the same instance twice on
the same slice produces identical final reports; `__call__` performs no
assignment to the instance, so both runs start from the same state. -/
theorem evaluate_idempotent (stmt : StatementInstance) (df : DataFrame) :
    (evaluateTwice stmt df).1 = (evaluateTwice stmt df).2 :=
  rfl

/-- Claim C8: construction is atomic — a constructed instance stores
exactly the class and the options mapping passed in, and a validation error
propagates out of `__init__` unchanged (the `self.options` assignment comes
after validation, so no instance exists on failure). -/
theorem construct_atomic (cls : StatementClass) (options : Dict) :
    (∀ stmt, construct cls options = Except.ok stmt →
      stmt.cls = cls ∧ stmt.options = options) ∧
    (∀ e, validateOptions cls options = Except.error e →
      construct cls options = Except.error e) := by
  constructor
  · intro stmt hok
    by_cases hu : unexpectedParameters cls options = [] <;>
      simp [construct, validateOptions, hu] at hok
    exact ⟨congrArg StatementInstance.cls hok.symm,
      congrArg StatementInstance.options hok.symm⟩
  · intro e he
    simp [construct, he]

/-- Witness for C8 at a concrete accepted construction. -/
theorem construct_atomic_witness :
    ({ cls := baseStatementClass,
       options := [("type", Value.s "base_statement")] } :
        StatementInstance).cls = baseStatementClass ∧
    ({ cls := baseStatementClass,
       options := [("type", Value.s "base_statement")] } :
        StatementInstance).options = [("type", Value.s "base_statement")] :=
  (construct_atomic baseStatementClass
      [("type", Value.s "base_statement")]).1
    { cls := baseStatementClass,
      options := [("type", Value.s "base_statement")] } rfl

/-- Claim C9: an unspecialized base statement trivially passes — its report
phase returns the empty dict on every slice and its result phase returns
true, so evaluation yields detail equal to the empty dict and result true. -/
theorem base_statement_trivially_passes (options : Dict) (df : DataFrame) :
    StatementInstance.call
        { cls := baseStatementClass, options := options } df =
      [("detail", Value.dict []), ("result", Value.b true)] :=
  rfl

/-- Claim C10: `DeirokayOperator.execute` returns the `path_to_file` the
operator was constructed with whenever it returns at all, and the
`save_json` constructor argument has no effect — the constructed operator is
identical whether it is supplied or not (it is not stored and not used). -/
theorem execute_returns_path_and_save_json_unused (env : AirflowEnv)
    (p o a : String) (sj : Option String) :
    (∀ r, DeirokayOperator.execute env (DeirokayOperator.init p o a sj) =
        Except.ok r → r = p) ∧
    DeirokayOperator.init p o a sj = DeirokayOperator.init p o a none := by
  refine ⟨?_, rfl⟩
  intro r hr
  simp only [DeirokayOperator.execute, DeirokayOperator.init] at hr
  split at hr
  · simp at hr
  · split at hr
    · simp at hr
    · exact (Except.ok.inj hr).symm

/-- Witness for C10: with collaborators that succeed, execution on a
concrete operator returns its file path, and supplying `save_json` yields
the same operator as omitting it. -/
theorem execute_returns_path_witness :
    (("file.csv" : String) = "file.csv") ∧
    DeirokayOperator.init "file.csv" "opt.json" "assert.json"
        (some "save.json") =
      DeirokayOperator.init "file.csv" "opt.json" "assert.json" none :=
  ⟨(execute_returns_path_and_save_json_unused trivialEnv "file.csv"
      "opt.json" "assert.json" (some "save.json")).1 "file.csv" rfl,
   (execute_returns_path_and_save_json_unused trivialEnv "file.csv"
      "opt.json" "assert.json" (some "save.json")).2⟩

end Deirokay
